import Mathlib

/-!
Shallow embedding of the Blog-App backend (Express + Mongoose routes in
src/server/routes/{auth,users,posts,comments}.js).  The document store is a
triple of lists; each route handler becomes a function from a store and the
request data to a response together with the successor store.  MongoDB
ObjectIds are modelled as naturals.  bcrypt is modelled as an ideal salted
hash (a pair of the salt and the hashed plaintext, with `bcryptCompare`
checking the plaintext), and the jsonwebtoken library as a symbolic signed
record: a token remembers the secret that signed it and its expiry, and
verification succeeds exactly when the presented secret matches and the
clock is before the expiry.  Times are seconds.
-/

namespace BlogApp

/-- Ideal model of a bcrypt hash: the salt together with the plaintext it
was derived from.  `bcrypt.hash` is injective in this model and
`bcrypt.compare` checks the remembered plaintext. -/
structure Hashed where
  salt : Nat
  plain : String
deriving DecidableEq, Repr

def bcryptHash (password : String) (salt : Nat) : Hashed := ⟨salt, password⟩

def bcryptCompare (password : String) (h : Hashed) : Bool := h.plain == password

/-- A persisted User document (models/User: username and email unique,
password stores the bcrypt hash). -/
structure User where
  _id : Nat
  username : String
  email : String
  password : Hashed
deriving DecidableEq, Repr

/-- A persisted Post document (models/Post). -/
structure Post where
  _id : Nat
  title : String
  desc : String
  username : String
  userId : Nat
  photo : Option String
  categories : Option (List String)
deriving DecidableEq, Repr

/-- A persisted Comment document (models/Comment). -/
structure Comment where
  _id : Nat
  comment : String
  author : String
  postId : Nat
  userId : Nat
deriving DecidableEq, Repr

/-- The whole document database. -/
structure Store where
  users : List User
  posts : List Post
  comments : List Comment
deriving DecidableEq, Repr

/-- Identity claims signed into a session token
(auth.js: jwt.sign of _id, username, email). -/
structure Claims where
  _id : Nat
  username : String
  email : String
deriving DecidableEq, Repr

/-- Symbolic session token: the payload, the expiry instant, and the
secret it was signed with (unforgeability of the signature is modelled by
recording the signing secret). -/
structure Token where
  payload : Claims
  exp : Nat
  secret : String
deriving DecidableEq, Repr

def threeDays : Nat := 3 * 24 * 60 * 60

/-- jwt.sign with expiresIn three days (auth.js login handler). -/
def jwtSign (c : Claims) (secret : String) (now : Nat) : Token :=
  ⟨c, now + threeDays, secret⟩

/-- jwt.verify: succeeds when a token is present, its signature matches the
secret, and it has not expired; a missing, tampered (wrong-secret) or
expired token fails. -/
def jwtVerify (t : Option Token) (secret : String) (now : Nat) : Option Claims :=
  match t with
  | none => none
  | some tok => if tok.secret == secret && now < tok.exp then some tok.payload else none

/-- Response of a mutating route handler: HTTP status, JSON body, and the
store after the operation. -/
structure HResult (β : Type) where
  status : Nat
  body : β
  store : Store
deriving DecidableEq, Repr

/-- The user record as serialized with the password field stripped
(`const \x7b password, ...info \x7d = user._doc`): every field of the
document except `password`. -/
structure UserInfo where
  _id : Nat
  username : String
  email : String
deriving DecidableEq, Repr

def stripPassword (u : User) : UserInfo := ⟨u._id, u.username, u.email⟩

/-- POST /api/auth/register (auth.js): reject with 400 when some user
already has the requested username or email, otherwise persist a new user
whose password is the bcrypt hash, answering 201 with the saved record. -/
def register (s : Store) (username email password : String) (salt newId : Nat) :
    HResult (Option User) :=
  match s.users.find? (fun u => u.username == username || u.email == email) with
  | some _ => ⟨400, none, s⟩
  | none =>
    let newUser : User := ⟨newId, username, email, bcryptHash password salt⟩
    ⟨201, some newUser, { s with users := s.users ++ [newUser] }⟩

/-- Response of POST /api/auth/login: status, the password-stripped user
info, the session-token cookie when one was set, and the store. -/
structure LoginResult where
  status : Nat
  info : Option UserInfo
  cookie : Option Token
  store : Store
deriving DecidableEq, Repr

/-- POST /api/auth/login (auth.js): 404 when no user has the email, 401
when the bcrypt comparison fails, otherwise sign a three-day token over
the identity claims, set it as the token cookie, and answer 200 with the
password-stripped user info. -/
def login (s : Store) (email password secret : String) (now : Nat) : LoginResult :=
  match s.users.find? (fun u => u.email == email) with
  | none => ⟨404, none, none, s⟩
  | some user =>
    if bcryptCompare password user.password then
      let token := jwtSign ⟨user._id, user.username, user.email⟩ secret now
      ⟨200, some (stripPassword user), some token, s⟩
    else
      ⟨401, none, none, s⟩

/-- GET /api/auth/refetch (auth.js): verify the token cookie and answer
200 with the decoded claims, or 404 on verification failure. -/
def refetch (cookie : Option Token) (secret : String) (now : Nat) :
    Nat × Option Claims :=
  match jwtVerify cookie secret now with
  | none => (404, none)
  | some data => (200, some data)

/-- Modelled from the spec: the `verifyToken` middleware
(src/server/middleware/verifyToken.js is absent from src/; only its
callers are present).  Per section 4.2 of the spec, the gate reads the
cookie named token, rejects an absent token without attempting any
identity claim, calls Verify on a present one and rejects on failure
(covering malformed, tampered and expired tokens alike), and on success
admits the request with the decoded identity attached. -/
def authGate (cookie : Option Token) (secret : String) (now : Nat) : Option Claims :=
  jwtVerify cookie secret now

/-- Wrapping of a mutating handler by the auth gate: a rejected request
is answered 401 with no body and the store untouched. -/
def gate (cookie : Option Token) (secret : String) (now : Nat) (s : Store)
    (handler : Claims → HResult (Option β)) : HResult (Option β) :=
  match authGate cookie secret now with
  | none => ⟨401, none, s⟩
  | some c => handler c

/-- Request body of PUT /api/users/:id; each field the client may send is
optional (users.js validators: username, email, password). -/
structure UserUpdateBody where
  username : Option String
  email : Option String
  password : Option String
deriving DecidableEq, Repr

/-- The effect of the MongoDB $set update with req.body on a user
document, after the handler replaced a present password by its bcrypt
hash (users.js PUT handler): present fields overwrite, absent fields keep
their stored value. -/
def applyUserSet (u : User) (b : UserUpdateBody) (salt : Nat) : User :=
  { u with
    username := b.username.getD u.username
    email := b.email.getD u.email
    password := match b.password with
      | some pw => bcryptHash pw salt
      | none => u.password }

/-- PUT /api/users/:id core (users.js): hash the password when present,
then findByIdAndUpdate with $set of the body; an absent id is a no-op
answered 200 with a null body.  Modelled from the spec: the User model
(src/server/models/User.js, absent from src/) declares username and email
unique, so the MongoDB unique index rejects an update that would duplicate
either across distinct users; the route handler catches that store error
and answers 500 with the store unchanged.  The $set merge itself follows
the route handler in src/server/routes/users.js. -/
def updateUser (s : Store) (id : Nat) (b : UserUpdateBody) (salt : Nat) :
    HResult (Option User) :=
  match s.users.find? (fun u => u._id == id) with
  | none => ⟨200, none, s⟩
  | some u =>
    let u' := applyUserSet u b salt
    if s.users.any (fun v => v._id != id && (v.username == u'.username || v.email == u'.email)) then
      ⟨500, none, s⟩
    else
      ⟨200, some u',
        { s with users := s.users.map (fun v => if v._id == id then u' else v) }⟩

/-- DELETE /api/users/:id core (users.js): 404 when the user is absent;
otherwise delete the user, then every post whose userId is the id, then
every comment whose userId is the id (deleteMany), answering 200. -/
def deleteUser (s : Store) (id : Nat) : HResult (Option String) :=
  match s.users.find? (fun u => u._id == id) with
  | none => ⟨404, some "User not found", s⟩
  | some _ =>
    ⟨200, some "User has been deleted!",
      { users := s.users.filter (fun u => u._id != id)
        posts := s.posts.filter (fun p => p.userId != id)
        comments := s.comments.filter (fun c => c.userId != id) }⟩

/-- GET /api/users/:id (users.js, public): 404 when absent, otherwise 200
with the user document minus the password field. -/
def getUser (s : Store) (id : Nat) : Nat × Option UserInfo :=
  match s.users.find? (fun u => u._id == id) with
  | none => (404, none)
  | some u => (200, some (stripPassword u))

/-- Request body of POST /api/posts/create (posts.js validators: title,
desc, username, userId required; photo and categories optional). -/
structure PostCreateBody where
  title : String
  desc : String
  username : String
  userId : Nat
  photo : Option String
  categories : Option (List String)
deriving DecidableEq, Repr

/-- POST /api/posts/create core (posts.js): persist a new post built from
the body and answer 200 with the saved record. -/
def createPost (s : Store) (b : PostCreateBody) (newId : Nat) : HResult (Option Post) :=
  let newPost : Post := ⟨newId, b.title, b.desc, b.username, b.userId, b.photo, b.categories⟩
  ⟨200, some newPost, { s with posts := s.posts ++ [newPost] }⟩

/-- Request body of PUT /api/posts/:id (posts.js validators: optional
title and desc). -/
structure PostUpdateBody where
  title : Option String
  desc : Option String
deriving DecidableEq, Repr

/-- PUT /api/posts/:id core (posts.js): findByIdAndUpdate with $set of
the body; an absent id is a no-op answered 200 with a null body. -/
def updatePost (s : Store) (id : Nat) (b : PostUpdateBody) : HResult (Option Post) :=
  match s.posts.find? (fun p => p._id == id) with
  | none => ⟨200, none, s⟩
  | some p =>
    let p' := { p with title := b.title.getD p.title, desc := b.desc.getD p.desc }
    ⟨200, some p',
      { s with posts := s.posts.map (fun q => if q._id == id then p' else q) }⟩

/-- DELETE /api/posts/:id core (posts.js): findByIdAndDelete the post
(a no-op when absent, with no existence check), then deleteMany every
comment whose postId is the id, answering 200 unconditionally. -/
def deletePost (s : Store) (id : Nat) : HResult (Option String) :=
  ⟨200, some "Post has been deleted!",
    { s with posts := s.posts.filter (fun p => p._id != id)
             comments := s.comments.filter (fun c => c.postId != id) }⟩

/-- GET /api/posts/:id (posts.js, public): findById and answer 200 with
the result, a null body included when the post is absent — the handler
performs no 404 check. -/
def getPost (s : Store) (id : Nat) : Nat × Option Post :=
  (200, s.posts.find? (fun p => p._id == id))

/-- Check that the first character list stands at the head of the second. -/
def charSeqAt : List Char → List Char → Bool
  | [], _ => true
  | _ :: _, [] => false
  | a :: as, b :: bs => a == b && charSeqAt as bs

/-- Check that the first character list occurs somewhere in the second. -/
def occursIn : List Char → List Char → Bool
  | n, [] => charSeqAt n []
  | n, c :: t => charSeqAt n (c :: t) || occursIn n t

/-- Case-insensitive substring match of a plain-text query against a
title, as the $regex filter with option i performs for such a query. -/
def titleMatches (q title : String) : Bool :=
  occursIn q.toLower.data title.toLower.data

/-- GET /api/posts with an optional search query (posts.js): a missing or
empty search yields every post, otherwise a case-insensitive substring
filter on the title (the $regex with option i of a plain-text query). -/
def getPosts (s : Store) (search : Option String) : Nat × List Post :=
  match search with
  | none => (200, s.posts)
  | some q =>
    if q.isEmpty then (200, s.posts)
    else (200, s.posts.filter (fun p => titleMatches q p.title))

/-- GET /api/posts/user/:userId (posts.js, public): every post whose
userId matches, answered 200. -/
def getPostsByUser (s : Store) (userId : Nat) : Nat × List Post :=
  (200, s.posts.filter (fun p => p.userId == userId))

/-- Request body of POST /api/comments/create (comments.js validators:
comment, author, postId, userId all required). -/
structure CommentCreateBody where
  comment : String
  author : String
  postId : Nat
  userId : Nat
deriving DecidableEq, Repr

/-- POST /api/comments/create core (comments.js): persist a new comment
built from the body and answer 200 with the saved record; the referenced
post and user are not checked for existence. -/
def createComment (s : Store) (b : CommentCreateBody) (newId : Nat) :
    HResult (Option Comment) :=
  let newComment : Comment := ⟨newId, b.comment, b.author, b.postId, b.userId⟩
  ⟨200, some newComment, { s with comments := s.comments ++ [newComment] }⟩

/-- Request body of PUT /api/comments/:id (comments.js validator: an
optional comment text). -/
structure CommentUpdateBody where
  comment : Option String
deriving DecidableEq, Repr

/-- PUT /api/comments/:id core (comments.js): findByIdAndUpdate with $set
of the body; an absent id is a no-op answered 200 with a null body. -/
def updateComment (s : Store) (id : Nat) (b : CommentUpdateBody) :
    HResult (Option Comment) :=
  match s.comments.find? (fun c => c._id == id) with
  | none => ⟨200, none, s⟩
  | some c =>
    let c' := { c with comment := b.comment.getD c.comment }
    ⟨200, some c',
      { s with comments := s.comments.map (fun d => if d._id == id then c' else d) }⟩

/-- DELETE /api/comments/:id core (comments.js): findByIdAndDelete the
comment (a no-op when absent, with no existence check), answering 200
unconditionally. -/
def deleteComment (s : Store) (id : Nat) : HResult (Option String) :=
  ⟨200, some "Comment has been deleted!",
    { s with comments := s.comments.filter (fun c => c._id != id) }⟩

/-- GET /api/comments/post/:postId (comments.js, public): every comment
whose postId matches, answered 200. -/
def getCommentsByPost (s : Store) (postId : Nat) : Nat × List Comment :=
  (200, s.comments.filter (fun c => c.postId == postId))

/-- PUT /api/users/:id as routed, behind verifyToken. -/
def gatedUpdateUser (cookie : Option Token) (secret : String) (now : Nat)
    (s : Store) (id : Nat) (b : UserUpdateBody) (salt : Nat) : HResult (Option User) :=
  gate cookie secret now s (fun _ => updateUser s id b salt)

/-- DELETE /api/users/:id as routed, behind verifyToken. -/
def gatedDeleteUser (cookie : Option Token) (secret : String) (now : Nat)
    (s : Store) (id : Nat) : HResult (Option String) :=
  gate cookie secret now s (fun _ => deleteUser s id)

/-- POST /api/posts/create as routed, behind verifyToken. -/
def gatedCreatePost (cookie : Option Token) (secret : String) (now : Nat)
    (s : Store) (b : PostCreateBody) (newId : Nat) : HResult (Option Post) :=
  gate cookie secret now s (fun _ => createPost s b newId)

/-- PUT /api/posts/:id as routed, behind verifyToken. -/
def gatedUpdatePost (cookie : Option Token) (secret : String) (now : Nat)
    (s : Store) (id : Nat) (b : PostUpdateBody) : HResult (Option Post) :=
  gate cookie secret now s (fun _ => updatePost s id b)

/-- DELETE /api/posts/:id as routed, behind verifyToken. -/
def gatedDeletePost (cookie : Option Token) (secret : String) (now : Nat)
    (s : Store) (id : Nat) : HResult (Option String) :=
  gate cookie secret now s (fun _ => deletePost s id)

/-- POST /api/comments/create as routed, behind verifyToken. -/
def gatedCreateComment (cookie : Option Token) (secret : String) (now : Nat)
    (s : Store) (b : CommentCreateBody) (newId : Nat) : HResult (Option Comment) :=
  gate cookie secret now s (fun _ => createComment s b newId)

/-- PUT /api/comments/:id as routed, behind verifyToken. -/
def gatedUpdateComment (cookie : Option Token) (secret : String) (now : Nat)
    (s : Store) (id : Nat) (b : CommentUpdateBody) : HResult (Option Comment) :=
  gate cookie secret now s (fun _ => updateComment s id b)

/-- DELETE /api/comments/:id as routed, behind verifyToken. -/
def gatedDeleteComment (cookie : Option Token) (secret : String) (now : Nat)
    (s : Store) (id : Nat) : HResult (Option String) :=
  gate cookie secret now s (fun _ => deleteComment s id)

/-- Uniqueness invariant of the User table: usernames pairwise distinct
and emails pairwise distinct. -/
def Store.UsersUniq (s : Store) : Prop :=
  (s.users.map (fun u => u.username)).Nodup ∧ (s.users.map (fun u => u.email)).Nodup

/-- Well-formedness of the User table: the MongoDB _id primary key is
unique, and the uniqueness invariant on usernames and emails holds. -/
def Store.WF (s : Store) : Prop :=
  (s.users.map (fun u => u._id)).Nodup ∧ s.UsersUniq

instance (s : Store) : Decidable s.UsersUniq := by
  unfold Store.UsersUniq; infer_instance

instance (s : Store) : Decidable s.WF := by
  unfold Store.WF; infer_instance

/-- A sample user for concrete evaluations. -/
def aliceUser : User := ⟨1, "alice", "alice@x.com", ⟨3, "alicepw"⟩⟩

/-- A second sample user. -/
def bobUser : User := ⟨2, "bob", "bob@x.com", ⟨4, "bobpw"⟩⟩

/-- A sample store: two users, a post of each, and three comments on
those posts — among them a comment of bob on a post of alice, so that the
partial-cascade behaviour of the user delete is observable. -/
def sampleStore : Store :=
  { users := [aliceUser, bobUser]
    posts := [⟨10, "T1", "D1", "alice", 1, none, none⟩,
              ⟨11, "T2", "D2", "bob", 2, none, none⟩]
    comments := [⟨20, "hi", "bob", 10, 2⟩,
                 ⟨21, "yo", "alice", 10, 1⟩,
                 ⟨22, "ok", "alice", 11, 1⟩] }

/-- A store holding a comment whose post reference identifies no stored
post, which the comment-create route permits (no referential check). -/
def orphanStore : Store :=
  { users := [], posts := [], comments := [⟨30, "stray", "bob", 5, 2⟩] }

end BlogApp

namespace BlogApp

/-- C1: deleting an existing user removes the user record, every post
owned by that user and every comment authored by that user, and keeps
exactly the comments whose user reference differs — including comments
by other users on the former posts of the deleted user (partial cascade). -/
theorem user_delete_partial_cascade (s : Store) (id : Nat) (u : User)
    (hu : s.users.find? (fun v => v._id == id) = some u) :
    (deleteUser s id).status = 200 ∧
    (deleteUser s id).store.users = s.users.filter (fun v => v._id != id) ∧
    (deleteUser s id).store.posts = s.posts.filter (fun p => p.userId != id) ∧
    (deleteUser s id).store.comments = s.comments.filter (fun c => c.userId != id) ∧
    (∀ v ∈ (deleteUser s id).store.users, v._id ≠ id) ∧
    (∀ p ∈ (deleteUser s id).store.posts, p.userId ≠ id) ∧
    (∀ c ∈ (deleteUser s id).store.comments, c.userId ≠ id) ∧
    (∀ c ∈ s.comments, c.userId ≠ id → c ∈ (deleteUser s id).store.comments) ∧
    (∀ c ∈ (deleteUser s id).store.comments, c ∈ s.comments) := by
  have hd : deleteUser s id =
      ⟨200, some "User has been deleted!",
        ⟨s.users.filter (fun v => v._id != id),
         s.posts.filter (fun p => p.userId != id),
         s.comments.filter (fun c => c.userId != id)⟩⟩ := by
    simp [deleteUser, hu]
  rw [hd]
  refine ⟨rfl, rfl, rfl, rfl, ?_, ?_, ?_, ?_, ?_⟩
  · intro v hv; exact (by simpa using (List.mem_filter.mp hv).2)
  · intro p hp; exact (by simpa using (List.mem_filter.mp hp).2)
  · intro c hc; exact (by simpa using (List.mem_filter.mp hc).2)
  · intro c hc hne; exact List.mem_filter.mpr ⟨hc, by simpa using hne⟩
  · intro c hc; exact (List.mem_filter.mp hc).1

/-- Witness for C1 at the sample store: deleting alice keeps the
comment of bob on the post of alice and removes the posts and comments of alice. -/
theorem user_delete_partial_cascade_witness :
    (deleteUser sampleStore 1).status = 200 ∧
    (deleteUser sampleStore 1).store.users =
      sampleStore.users.filter (fun v => v._id != 1) ∧
    (deleteUser sampleStore 1).store.posts =
      sampleStore.posts.filter (fun p => p.userId != 1) ∧
    (deleteUser sampleStore 1).store.comments =
      sampleStore.comments.filter (fun c => c.userId != 1) ∧
    (∀ v ∈ (deleteUser sampleStore 1).store.users, v._id ≠ 1) ∧
    (∀ p ∈ (deleteUser sampleStore 1).store.posts, p.userId ≠ 1) ∧
    (∀ c ∈ (deleteUser sampleStore 1).store.comments, c.userId ≠ 1) ∧
    (∀ c ∈ sampleStore.comments, c.userId ≠ 1 →
        c ∈ (deleteUser sampleStore 1).store.comments) ∧
    (∀ c ∈ (deleteUser sampleStore 1).store.comments, c ∈ sampleStore.comments) :=
  user_delete_partial_cascade sampleStore 1 aliceUser (by decide)

/-- C2: deleting a stored post removes the post record and every comment
whose post reference equals it, leaving no comment referencing the post,
and touches no user. -/
theorem post_delete_cascade (s : Store) (id : Nat) (p : Post)
    (_hp : s.posts.find? (fun q => q._id == id) = some p) :
    (deletePost s id).status = 200 ∧
    (deletePost s id).store.posts = s.posts.filter (fun q => q._id != id) ∧
    (deletePost s id).store.comments = s.comments.filter (fun c => c.postId != id) ∧
    (∀ q ∈ (deletePost s id).store.posts, q._id ≠ id) ∧
    (∀ c ∈ (deletePost s id).store.comments, c.postId ≠ id) ∧
    (∀ c ∈ s.comments, c.postId ≠ id → c ∈ (deletePost s id).store.comments) ∧
    (deletePost s id).store.users = s.users := by
  refine ⟨rfl, rfl, rfl, ?_, ?_, ?_, rfl⟩
  · intro q hq; exact (by simpa using (List.mem_filter.mp hq).2)
  · intro c hc; exact (by simpa using (List.mem_filter.mp hc).2)
  · intro c hc hne; exact List.mem_filter.mpr ⟨hc, by simpa using hne⟩

/-- Witness for C2 at the sample store: deleting post 10 removes both of
its comments and keeps the comment on post 11. -/
theorem post_delete_cascade_witness :
    (deletePost sampleStore 10).status = 200 ∧
    (deletePost sampleStore 10).store.posts =
      sampleStore.posts.filter (fun q => q._id != 10) ∧
    (deletePost sampleStore 10).store.comments =
      sampleStore.comments.filter (fun c => c.postId != 10) ∧
    (∀ q ∈ (deletePost sampleStore 10).store.posts, q._id ≠ 10) ∧
    (∀ c ∈ (deletePost sampleStore 10).store.comments, c.postId ≠ 10) ∧
    (∀ c ∈ sampleStore.comments, c.postId ≠ 10 →
        c ∈ (deletePost sampleStore 10).store.comments) ∧
    (deletePost sampleStore 10).store.users = sampleStore.users :=
  post_delete_cascade sampleStore 10 ⟨10, "T1", "D1", "alice", 1, none, none⟩ (by decide)

/-- C6: fetching a stored user by id answers 200 with exactly the fields
of the record other than password; the response type carries no password
field, so the hash is never included. -/
theorem get_user_strips_password (s : Store) (id : Nat) (u : User)
    (h : s.users.find? (fun v => v._id == id) = some u) :
    getUser s id = (200, some ⟨u._id, u.username, u.email⟩) := by
  simp [getUser, h, stripPassword]

/-- Witness for C6: fetching alice yields her id, username and email. -/
theorem get_user_strips_password_witness :
    getUser sampleStore 1 = (200, some ⟨1, "alice", "alice@x.com"⟩) :=
  get_user_strips_password sampleStore 1 aliceUser (by decide)

/-- C9 counterexample: fetching an absent post by id answers 200 with a
null body, not 404 — the posts GET handler performs no absence check, so
the claim that both single-entity GETs answer 404 on absence is false. -/
theorem get_absent_post_answers_200 :
    sampleStore.posts.find? (fun q => q._id == 99) = none ∧
    getPost sampleStore 99 = (200, none) := by decide

/-- C9 amended: fetching an absent user by id answers 404 with no body,
while fetching an absent post by id answers 200 with a null body. -/
theorem absent_entity_responses (s : Store) (uid pid : Nat)
    (hu : s.users.find? (fun v => v._id == uid) = none)
    (hp : s.posts.find? (fun q => q._id == pid) = none) :
    getUser s uid = (404, none) ∧ getPost s pid = (200, none) := by
  constructor
  · simp [getUser, hu]
  · simp [getPost, hp]

/-- Witness for the amended C9 at the sample store. -/
theorem absent_entity_responses_witness :
    getUser sampleStore 99 = (404, none) ∧ getPost sampleStore 99 = (200, none) :=
  absent_entity_responses sampleStore 99 99 (by decide) (by decide)

/-- C5: a login for an unknown email answers 404, a login for a stored
user with a password failing the bcrypt comparison answers 401; in both
cases no user info is returned, no token cookie is set, and the store is
unchanged. -/
theorem login_failure_semantics (s : Store) (email pw secret : String) (now : Nat) :
    (s.users.find? (fun v => v.email == email) = none →
      login s email pw secret now = ⟨404, none, none, s⟩) ∧
    (∀ u, s.users.find? (fun v => v.email == email) = some u →
      bcryptCompare pw u.password = false →
      login s email pw secret now = ⟨401, none, none, s⟩) := by
  constructor
  · intro h; simp [login, h]
  · intro u hu hcmp; simp [login, hu, hcmp]

/-- Witness for C5: an unknown email and a wrong password at the sample
store, each leaving the store as it was with no cookie. -/
theorem login_failure_semantics_witness :
    login sampleStore "nobody@x.com" "pw" "s3cr3t" 0 = ⟨404, none, none, sampleStore⟩ ∧
    login sampleStore "alice@x.com" "wrong" "s3cr3t" 0 = ⟨401, none, none, sampleStore⟩ :=
  ⟨(login_failure_semantics sampleStore "nobody@x.com" "pw" "s3cr3t" 0).1 (by decide),
   (login_failure_semantics sampleStore "alice@x.com" "wrong" "s3cr3t" 0).2
      aliceUser (by decide) (by decide)⟩

/-- C4: a login with the email of a stored user and correct password answers
200, strips the password from the returned info, and sets a token cookie
which, verified with the same secret before its three-day expiry as the
refetch route does, yields exactly the signed identity claims: the
id, username and email of the user. -/
theorem login_token_roundtrip (s : Store) (u : User) (pw secret : String) (now t : Nat)
    (hu : s.users.find? (fun v => v.email == u.email) = some u)
    (hpw : bcryptCompare pw u.password = true)
    (ht : t < now + threeDays) :
    (login s u.email pw secret now).status = 200 ∧
    (login s u.email pw secret now).info = some (stripPassword u) ∧
    (login s u.email pw secret now).cookie =
      some (jwtSign ⟨u._id, u.username, u.email⟩ secret now) ∧
    refetch (login s u.email pw secret now).cookie secret t =
      (200, some ⟨u._id, u.username, u.email⟩) ∧
    (login s u.email pw secret now).store = s := by
  have hl : login s u.email pw secret now =
      ⟨200, some (stripPassword u),
        some (jwtSign ⟨u._id, u.username, u.email⟩ secret now), s⟩ := by
    simp [login, hu, hpw]
  rw [hl]
  refine ⟨rfl, rfl, rfl, ?_, rfl⟩
  simp [refetch, jwtVerify, jwtSign, ht]

/-- Witness for C4: alice logs in at time 0 and the cookie verifies at
time 5 to her identity claims. -/
theorem login_token_roundtrip_witness :
    (login sampleStore "alice@x.com" "alicepw" "s3cr3t" 0).status = 200 ∧
    (login sampleStore "alice@x.com" "alicepw" "s3cr3t" 0).info =
      some (stripPassword aliceUser) ∧
    (login sampleStore "alice@x.com" "alicepw" "s3cr3t" 0).cookie =
      some (jwtSign ⟨1, "alice", "alice@x.com"⟩ "s3cr3t" 0) ∧
    refetch (login sampleStore "alice@x.com" "alicepw" "s3cr3t" 0).cookie "s3cr3t" 5 =
      (200, some ⟨1, "alice", "alice@x.com"⟩) ∧
    (login sampleStore "alice@x.com" "alicepw" "s3cr3t" 0).store = sampleStore :=
  login_token_roundtrip sampleStore aliceUser "alicepw" "s3cr3t" 0 5
    (by decide) (by decide) (by decide)

/-- C7: when the token cookie of the request is missing, tampered (signed with
a different secret, which in the symbolic token model also covers a
malformed token) or expired, every state-mutating operation on users,
posts and comments answers 401 and leaves the store unchanged, while
every public read answers without any token: 200 for the post, posts
list, posts-by-user and comments-by-post reads, and 200 or 404 for the
user read. -/
theorem auth_gate_guards_mutations (cookie : Option Token) (secret : String)
    (now : Nat) (s : Store) (uid pid cid nid salt : Nat)
    (ub : UserUpdateBody) (pb : PostCreateBody) (pub : PostUpdateBody)
    (cb : CommentCreateBody) (cub : CommentUpdateBody) (search : Option String)
    (h : cookie = none ∨
      ∃ tok, cookie = some tok ∧ (tok.secret ≠ secret ∨ tok.exp ≤ now)) :
    gatedUpdateUser cookie secret now s uid ub salt = ⟨401, none, s⟩ ∧
    gatedDeleteUser cookie secret now s uid = ⟨401, none, s⟩ ∧
    gatedCreatePost cookie secret now s pb nid = ⟨401, none, s⟩ ∧
    gatedUpdatePost cookie secret now s pid pub = ⟨401, none, s⟩ ∧
    gatedDeletePost cookie secret now s pid = ⟨401, none, s⟩ ∧
    gatedCreateComment cookie secret now s cb nid = ⟨401, none, s⟩ ∧
    gatedUpdateComment cookie secret now s cid cub = ⟨401, none, s⟩ ∧
    gatedDeleteComment cookie secret now s cid = ⟨401, none, s⟩ ∧
    (getPost s pid).1 = 200 ∧
    (getPosts s search).1 = 200 ∧
    (getPostsByUser s uid).1 = 200 ∧
    (getCommentsByPost s pid).1 = 200 ∧
    ((getUser s uid).1 = 200 ∨ (getUser s uid).1 = 404) := by
  have hg : authGate cookie secret now = none := by
    rcases h with rfl | ⟨tok, rfl, h2 | h2⟩
    · rfl
    · have hb : (tok.secret == secret) = false := beq_eq_false_iff_ne.mpr h2
      simp [authGate, jwtVerify, hb]
    · have hb : decide (now < tok.exp) = false := decide_eq_false (by omega)
      simp [authGate, jwtVerify, hb]
  refine ⟨?_, ?_, ?_, ?_, ?_, ?_, ?_, ?_, rfl, ?_, rfl, rfl, ?_⟩
  · simp [gatedUpdateUser, gate, hg]
  · simp [gatedDeleteUser, gate, hg]
  · simp [gatedCreatePost, gate, hg]
  · simp [gatedUpdatePost, gate, hg]
  · simp [gatedDeletePost, gate, hg]
  · simp [gatedCreateComment, gate, hg]
  · simp [gatedUpdateComment, gate, hg]
  · simp [gatedDeleteComment, gate, hg]
  · cases search with
    | none => rfl
    | some q =>
      simp only [getPosts]
      split <;> rfl
  · cases hfind : s.users.find? (fun v => v._id == uid) with
    | none => right; simp [getUser, hfind]
    | some u => left; simp [getUser, hfind]

/-- Witness for C7: a token signed with a different secret is rejected by
every mutating route at the sample store, and the public reads answer. -/
theorem auth_gate_guards_mutations_witness :
    gatedUpdateUser (some ⟨⟨1, "alice", "alice@x.com"⟩, 999, "evil"⟩) "s3cr3t" 0
        sampleStore 1 ⟨none, none, none⟩ 7 = ⟨401, none, sampleStore⟩ ∧
    gatedDeleteUser (some ⟨⟨1, "alice", "alice@x.com"⟩, 999, "evil"⟩) "s3cr3t" 0
        sampleStore 1 = ⟨401, none, sampleStore⟩ ∧
    gatedCreatePost (some ⟨⟨1, "alice", "alice@x.com"⟩, 999, "evil"⟩) "s3cr3t" 0
        sampleStore ⟨"T", "D", "alice", 1, none, none⟩ 12 = ⟨401, none, sampleStore⟩ ∧
    gatedUpdatePost (some ⟨⟨1, "alice", "alice@x.com"⟩, 999, "evil"⟩) "s3cr3t" 0
        sampleStore 10 ⟨none, none⟩ = ⟨401, none, sampleStore⟩ ∧
    gatedDeletePost (some ⟨⟨1, "alice", "alice@x.com"⟩, 999, "evil"⟩) "s3cr3t" 0
        sampleStore 10 = ⟨401, none, sampleStore⟩ ∧
    gatedCreateComment (some ⟨⟨1, "alice", "alice@x.com"⟩, 999, "evil"⟩) "s3cr3t" 0
        sampleStore ⟨"c", "alice", 10, 1⟩ 23 = ⟨401, none, sampleStore⟩ ∧
    gatedUpdateComment (some ⟨⟨1, "alice", "alice@x.com"⟩, 999, "evil"⟩) "s3cr3t" 0
        sampleStore 20 ⟨none⟩ = ⟨401, none, sampleStore⟩ ∧
    gatedDeleteComment (some ⟨⟨1, "alice", "alice@x.com"⟩, 999, "evil"⟩) "s3cr3t" 0
        sampleStore 20 = ⟨401, none, sampleStore⟩ ∧
    (getPost sampleStore 10).1 = 200 ∧
    (getPosts sampleStore (some "T")).1 = 200 ∧
    (getPostsByUser sampleStore 1).1 = 200 ∧
    (getCommentsByPost sampleStore 10).1 = 200 ∧
    ((getUser sampleStore 1).1 = 200 ∨ (getUser sampleStore 1).1 = 404) :=
  auth_gate_guards_mutations (some ⟨⟨1, "alice", "alice@x.com"⟩, 999, "evil"⟩)
    "s3cr3t" 0 sampleStore 1 10 20 23 7 ⟨none, none, none⟩
    ⟨"T", "D", "alice", 1, none, none⟩ ⟨none, none⟩ ⟨"c", "alice", 10, 1⟩ ⟨none⟩
    (some "T")
    (Or.inr ⟨⟨⟨1, "alice", "alice@x.com"⟩, 999, "evil"⟩, rfl, Or.inl (by decide)⟩)

/-- C8 counterexample: the post-delete route on an id naming no stored
post still answers a no-op 200 but removes the stray comment referencing
that id, so the store is changed — the claim that delete on a
nonexistent entity always leaves the store unchanged is false. -/
theorem delete_absent_post_changes_store :
    orphanStore.posts.find? (fun q => q._id == 5) = none ∧
    (deletePost orphanStore 5).status = 200 ∧
    (deletePost orphanStore 5).store ≠ orphanStore := by decide

/-- C8 amended: deleting an absent user answers NotFound with the store
unchanged; deleting an absent comment answers a no-op 200 with the store
unchanged; deleting an absent post answers a no-op 200 and never
crashes, but the store is only guaranteed unchanged when no comment
references the deleted id. -/
theorem delete_absent_idempotent (s : Store) (uid pid cid : Nat)
    (hu : s.users.find? (fun v => v._id == uid) = none)
    (hp : s.posts.find? (fun q => q._id == pid) = none)
    (hpc : ∀ c ∈ s.comments, c.postId ≠ pid)
    (hc : s.comments.find? (fun c => c._id == cid) = none) :
    deleteUser s uid = ⟨404, some "User not found", s⟩ ∧
    (deletePost s pid).status = 200 ∧
    (deletePost s pid).store = s ∧
    (deleteComment s cid).status = 200 ∧
    (deleteComment s cid).store = s := by
  have hp' : s.posts.filter (fun q => q._id != pid) = s.posts := by
    apply List.filter_eq_self.mpr
    intro q hq
    have := List.find?_eq_none.mp hp q hq
    simpa using this
  have hpc' : s.comments.filter (fun c => c.postId != pid) = s.comments := by
    apply List.filter_eq_self.mpr
    intro c hcm
    simpa using hpc c hcm
  have hc' : s.comments.filter (fun c => c._id != cid) = s.comments := by
    apply List.filter_eq_self.mpr
    intro c hcm
    have := List.find?_eq_none.mp hc c hcm
    simpa using this
  refine ⟨?_, rfl, ?_, rfl, ?_⟩
  · simp [deleteUser, hu]
  · show Store.mk s.users (s.posts.filter (fun q => q._id != pid))
        (s.comments.filter (fun c => c.postId != pid)) = s
    rw [hp', hpc']
  · show Store.mk s.users s.posts (s.comments.filter (fun c => c._id != cid)) = s
    rw [hc']

/-- Witness for the amended C8: absent ids at the sample store. -/
theorem delete_absent_idempotent_witness :
    deleteUser sampleStore 99 = ⟨404, some "User not found", sampleStore⟩ ∧
    (deletePost sampleStore 99).status = 200 ∧
    (deletePost sampleStore 99).store = sampleStore ∧
    (deleteComment sampleStore 99).status = 200 ∧
    (deleteComment sampleStore 99).store = sampleStore :=
  delete_absent_idempotent sampleStore 99 99 99
    (by decide) (by decide) (by decide) (by decide)

/-- C10: updating a stored user overwrites exactly the fields present in
the request body — the password via its salted bcrypt hash — keeps every
absent field at its previous value, rewrites only the one document with
the requested id, and touches no post or comment.  The hypothesis that
no distinct user already holds the requested username or email is the
unique-index guard of the store. -/
theorem user_update_frame (s : Store) (id : Nat) (b : UserUpdateBody)
    (salt : Nat) (u : User)
    (hu : s.users.find? (fun v => v._id == id) = some u)
    (hnc : s.users.any (fun v => v._id != id &&
        (v.username == (applyUserSet u b salt).username ||
         v.email == (applyUserSet u b salt).email)) = false) :
    (updateUser s id b salt).status = 200 ∧
    (updateUser s id b salt).body = some (applyUserSet u b salt) ∧
    (updateUser s id b salt).store.users =
      s.users.map (fun v => if v._id == id then applyUserSet u b salt else v) ∧
    (applyUserSet u b salt)._id = u._id ∧
    (applyUserSet u b salt).username = b.username.getD u.username ∧
    (applyUserSet u b salt).email = b.email.getD u.email ∧
    (applyUserSet u b salt).password =
      (b.password.map (fun pw => bcryptHash pw salt)).getD u.password ∧
    (∀ v ∈ s.users, v._id ≠ id → v ∈ (updateUser s id b salt).store.users) ∧
    (updateUser s id b salt).store.posts = s.posts ∧
    (updateUser s id b salt).store.comments = s.comments := by
  have hupd : updateUser s id b salt =
      ⟨200, some (applyUserSet u b salt),
        { s with users :=
            s.users.map (fun v => if v._id == id then applyUserSet u b salt else v) }⟩ := by
    simp [updateUser, hu, hnc]
  rw [hupd]
  refine ⟨rfl, rfl, rfl, rfl, rfl, rfl, ?_, ?_, rfl, rfl⟩
  · cases hb : b.password <;> simp [applyUserSet, hb]
  · intro v hv hne
    have hbv : (v._id == id) = false := beq_eq_false_iff_ne.mpr hne
    have : (fun w => if w._id == id then applyUserSet u b salt else w) v = v := by
      simp [hbv]
    exact this ▸ List.mem_map_of_mem _ hv

/-- Witness for C10: the email and password of alice change while her absent
username field keeps its stored value and bob stays untouched. -/
theorem user_update_frame_witness :
    (updateUser sampleStore 1 ⟨none, some "al@y.com", some "newpass"⟩ 9).status = 200 ∧
    (updateUser sampleStore 1 ⟨none, some "al@y.com", some "newpass"⟩ 9).body =
      some (applyUserSet aliceUser ⟨none, some "al@y.com", some "newpass"⟩ 9) ∧
    (updateUser sampleStore 1 ⟨none, some "al@y.com", some "newpass"⟩ 9).store.users =
      sampleStore.users.map (fun v => if v._id == 1
        then applyUserSet aliceUser ⟨none, some "al@y.com", some "newpass"⟩ 9 else v) ∧
    (applyUserSet aliceUser ⟨none, some "al@y.com", some "newpass"⟩ 9)._id =
      aliceUser._id ∧
    (applyUserSet aliceUser ⟨none, some "al@y.com", some "newpass"⟩ 9).username =
      (none : Option String).getD aliceUser.username ∧
    (applyUserSet aliceUser ⟨none, some "al@y.com", some "newpass"⟩ 9).email =
      (some "al@y.com").getD aliceUser.email ∧
    (applyUserSet aliceUser ⟨none, some "al@y.com", some "newpass"⟩ 9).password =
      ((some "newpass").map (fun pw => bcryptHash pw 9)).getD aliceUser.password ∧
    (∀ v ∈ sampleStore.users, v._id ≠ 1 →
      v ∈ (updateUser sampleStore 1 ⟨none, some "al@y.com", some "newpass"⟩ 9).store.users) ∧
    (updateUser sampleStore 1 ⟨none, some "al@y.com", some "newpass"⟩ 9).store.posts =
      sampleStore.posts ∧
    (updateUser sampleStore 1 ⟨none, some "al@y.com", some "newpass"⟩ 9).store.comments =
      sampleStore.comments :=
  user_update_frame sampleStore 1 ⟨none, some "al@y.com", some "newpass"⟩ 9 aliceUser
    (by decide) (by decide)

/-- Replacing the single document carrying a given id keeps a projection
of the user list duplicate-free, provided the ids are duplicate-free and
no document other than the replaced one shares the projection of the
replacement. -/
theorem nodup_map_update (l : List User) (uid : Nat) (u' : User) (f : User → String)
    (hid : (l.map (fun v => v._id)).Nodup)
    (hf : (l.map f).Nodup)
    (hnc : ∀ v ∈ l, v._id = uid ∨ f v ≠ f u') :
    ((l.map (fun v => if v._id == uid then u' else v)).map f).Nodup := by
  induction l with
  | nil => simp
  | cons x xs ih =>
    simp only [List.map_cons, List.nodup_cons] at hid hf
    by_cases hx : x._id = uid
    · have hxs : ∀ v ∈ xs, (v._id == uid) = false := by
        intro v hv
        apply beq_eq_false_iff_ne.mpr
        intro hvid
        have hmem : v._id ∈ xs.map (fun w => w._id) := List.mem_map_of_mem _ hv
        rw [hvid, ← hx] at hmem
        exact hid.1 hmem
      have hmap : xs.map (fun v => if v._id == uid then u' else v) = xs := by
        have hcong : xs.map (fun v => if v._id == uid then u' else v)
            = xs.map (fun v => v) :=
          List.map_congr_left (fun v hv => by simp [hxs v hv])
        simpa using hcong
      have hrx : (if x._id == uid then u' else x) = u' := by
        simp [beq_iff_eq.mpr hx]
      simp only [List.map_cons, hrx, hmap, List.nodup_cons]
      constructor
      · intro hmem
        obtain ⟨v, hv, hveq⟩ := List.mem_map.mp hmem
        rcases hnc v (List.mem_cons_of_mem _ hv) with hvid | hne
        · have := hxs v hv
          rw [beq_eq_false_iff_ne] at this
          exact this hvid
        · exact hne hveq
      · exact hf.2
    · have hrx : (if x._id == uid then u' else x) = x := by
        simp [beq_eq_false_iff_ne.mpr hx]
      simp only [List.map_cons, hrx, List.nodup_cons]
      constructor
      · intro hmem
        obtain ⟨w, hw, hweq⟩ := List.mem_map.mp hmem
        obtain ⟨v, hv, hveq⟩ := List.mem_map.mp hw
        by_cases hv' : v._id = uid
        · have hwu : w = u' := by
            rw [← hveq]; simp [beq_iff_eq.mpr hv']
          rcases hnc x (List.mem_cons_self _ _) with hxid | hne
          · exact hx hxid
          · exact hne (by rw [← hweq, hwu])
        · have hwv : w = v := by
            rw [← hveq]; simp [beq_eq_false_iff_ne.mpr hv']
          exact hf.1 (by rw [← hweq, hwv]; exact List.mem_map_of_mem _ hv)
      · exact ih hid.2 hf.2 (fun v hv => hnc v (List.mem_cons_of_mem _ hv))

/-- C3: usernames and emails stay pairwise distinct.  A first
registration of a fresh username and email answers 201 and grows the
table by one record, and a second registration reusing that username or
that email answers 400 and leaves the table as it was, so the two
attempts gain exactly one record.  Registration, profile update (behind
the unique index of the User model) and user deletion each preserve the
uniqueness invariant, login never writes the store, and the post and
comment operations never touch the User table. -/
theorem users_unique_invariant
    (s : Store) (un em un2 em2 pw pw2 : String) (salt salt2 nid nid2 : Nat)
    (id pid cid npid ncid : Nat) (b : UserUpdateBody) (usalt : Nat)
    (pb : PostCreateBody) (pub : PostUpdateBody)
    (cb : CommentCreateBody) (cub : CommentUpdateBody)
    (email pw3 secret : String) (now : Nat)
    (hwf : s.WF) :
    (s.users.find? (fun v => v.username == un || v.email == em) = none →
      (un2 = un ∨ em2 = em) →
      (register s un em pw salt nid).status = 201 ∧
      (register s un em pw salt nid).store.users.length = s.users.length + 1 ∧
      (register (register s un em pw salt nid).store un2 em2 pw2 salt2 nid2).status = 400 ∧
      (register (register s un em pw salt nid).store un2 em2 pw2 salt2 nid2).store =
        (register s un em pw salt nid).store) ∧
    (register s un em pw salt nid).store.UsersUniq ∧
    (updateUser s id b usalt).store.UsersUniq ∧
    (deleteUser s id).store.UsersUniq ∧
    (login s email pw3 secret now).store = s ∧
    (createPost s pb npid).store.users = s.users ∧
    (updatePost s pid pub).store.users = s.users ∧
    (deletePost s pid).store.users = s.users ∧
    (createComment s cb ncid).store.users = s.users ∧
    (updateComment s cid cub).store.users = s.users ∧
    (deleteComment s cid).store.users = s.users := by
  refine ⟨?_, ?_, ?_, ?_, ?_, rfl, ?_, rfl, rfl, ?_, rfl⟩
  · intro hnone hdup
    have hreg : register s un em pw salt nid =
        ⟨201, some ⟨nid, un, em, bcryptHash pw salt⟩,
          { s with users := s.users ++ [⟨nid, un, em, bcryptHash pw salt⟩] }⟩ := by
      simp [register, hnone]
    have hmem : (⟨nid, un, em, bcryptHash pw salt⟩ : User) ∈
        s.users ++ [⟨nid, un, em, bcryptHash pw salt⟩] := by simp
    have hpred : ((⟨nid, un, em, bcryptHash pw salt⟩ : User).username == un2 ||
        (⟨nid, un, em, bcryptHash pw salt⟩ : User).email == em2) = true := by
      rcases hdup with h | h <;> simp [h]
    have hfound : ((s.users ++ [(⟨nid, un, em, bcryptHash pw salt⟩ : User)]).find?
        (fun v => v.username == un2 || v.email == em2)).isSome :=
      List.find?_isSome.mpr ⟨_, hmem, hpred⟩
    obtain ⟨x, hx⟩ := Option.isSome_iff_exists.mp hfound
    refine ⟨by rw [hreg], by rw [hreg]; simp, ?_, ?_⟩
    · rw [hreg]; simp only [register]; rw [hx]
    · rw [hreg]; simp only [register]; rw [hx]
  · cases hfind : s.users.find? (fun v => v.username == un || v.email == em) with
    | some x =>
      have hs : (register s un em pw salt nid).store = s := by simp [register, hfind]
      rw [hs]; exact hwf.2
    | none =>
      have hs : (register s un em pw salt nid).store =
          { s with users := s.users ++ [⟨nid, un, em, bcryptHash pw salt⟩] } := by
        simp [register, hfind]
      rw [hs]
      have hfresh : ∀ v ∈ s.users, v.username ≠ un ∧ v.email ≠ em := by
        intro v hv
        have hvp := List.find?_eq_none.mp hfind v hv
        simpa using hvp
      unfold Store.UsersUniq
      constructor
      · rw [List.map_append]
        refine List.Nodup.append hwf.2.1 (by simp) ?_
        rw [List.disjoint_left]
        intro a ha hmem
        simp only [List.map_cons, List.map_nil, List.mem_singleton] at hmem
        obtain ⟨v, hv, hveq⟩ := List.mem_map.mp ha
        exact (hfresh v hv).1 (by rw [hveq, hmem])
      · rw [List.map_append]
        refine List.Nodup.append hwf.2.2 (by simp) ?_
        rw [List.disjoint_left]
        intro a ha hmem
        simp only [List.map_cons, List.map_nil, List.mem_singleton] at hmem
        obtain ⟨v, hv, hveq⟩ := List.mem_map.mp ha
        exact (hfresh v hv).2 (by rw [hveq, hmem])
  · cases hfind : s.users.find? (fun v => v._id == id) with
    | none =>
      have hs : (updateUser s id b usalt).store = s := by simp [updateUser, hfind]
      rw [hs]; exact hwf.2
    | some u =>
      cases hany : s.users.any (fun v => v._id != id &&
          (v.username == (applyUserSet u b usalt).username ||
           v.email == (applyUserSet u b usalt).email)) with
      | true =>
        have hs : (updateUser s id b usalt).store = s := by
          simp [updateUser, hfind, hany]
        rw [hs]; exact hwf.2
      | false =>
        have hs : (updateUser s id b usalt).store =
            { s with users :=
                s.users.map (fun v => if v._id == id then applyUserSet u b usalt else v) } := by
          simp [updateUser, hfind, hany]
        rw [hs]
        have hnc : ∀ v ∈ s.users, v._id = id ∨
            (v.username ≠ (applyUserSet u b usalt).username ∧
             v.email ≠ (applyUserSet u b usalt).email) := by
          intro v hv
          have hvp := List.any_eq_false.mp hany v hv
          simp only [Bool.and_eq_true, bne_iff_ne, Bool.or_eq_true, beq_iff_eq,
            not_and, not_or] at hvp
          by_cases hvid : v._id = id
          · exact Or.inl hvid
          · exact Or.inr (hvp hvid)
        unfold Store.UsersUniq
        constructor
        · exact nodup_map_update s.users id (applyUserSet u b usalt)
            (fun v => v.username) hwf.1 hwf.2.1
            (fun v hv => (hnc v hv).imp (fun h => h) (fun h => h.1))
        · exact nodup_map_update s.users id (applyUserSet u b usalt)
            (fun v => v.email) hwf.1 hwf.2.2
            (fun v hv => (hnc v hv).imp (fun h => h) (fun h => h.2))
  · cases hfind : s.users.find? (fun v => v._id == id) with
    | none =>
      have hs : (deleteUser s id).store = s := by simp [deleteUser, hfind]
      rw [hs]; exact hwf.2
    | some u =>
      have hs : (deleteUser s id).store =
          ⟨s.users.filter (fun v => v._id != id),
           s.posts.filter (fun p => p.userId != id),
           s.comments.filter (fun c => c.userId != id)⟩ := by
        simp [deleteUser, hfind]
      rw [hs]
      unfold Store.UsersUniq
      constructor
      · exact List.Nodup.sublist ((List.filter_sublist _).map _) hwf.2.1
      · exact List.Nodup.sublist ((List.filter_sublist _).map _) hwf.2.2
  · cases hfind : s.users.find? (fun v => v.email == email) with
    | none => simp [login, hfind]
    | some u =>
      cases hcmp : bcryptCompare pw3 u.password <;> simp [login, hfind, hcmp]
  · simp only [updatePost]
    split
    · rfl
    · rfl
  · simp only [updateComment]
    split
    · rfl
    · rfl

/-- Witness for C3 at the sample store: registering carol once succeeds,
registering her email again is rejected with the table unchanged, and
the update, delete and collection operations at concrete arguments keep
the uniqueness invariant. -/
theorem users_unique_invariant_witness :
    (register sampleStore "carol" "carol@x.com" "cpw" 5 3).status = 201 ∧
    (register sampleStore "carol" "carol@x.com" "cpw" 5 3).store.users.length =
      sampleStore.users.length + 1 ∧
    (register (register sampleStore "carol" "carol@x.com" "cpw" 5 3).store
      "carol2" "carol@x.com" "cpw2" 6 4).status = 400 ∧
    (register (register sampleStore "carol" "carol@x.com" "cpw" 5 3).store
      "carol2" "carol@x.com" "cpw2" 6 4).store =
      (register sampleStore "carol" "carol@x.com" "cpw" 5 3).store ∧
    (register sampleStore "carol" "carol@x.com" "cpw" 5 3).store.UsersUniq ∧
    (updateUser sampleStore 1 ⟨none, none, none⟩ 7).store.UsersUniq ∧
    (deleteUser sampleStore 1).store.UsersUniq ∧
    (login sampleStore "alice@x.com" "alicepw" "s3cr3t" 0).store = sampleStore ∧
    (createPost sampleStore ⟨"T", "D", "alice", 1, none, none⟩ 12).store.users =
      sampleStore.users ∧
    (updatePost sampleStore 10 ⟨none, none⟩).store.users = sampleStore.users ∧
    (deletePost sampleStore 10).store.users = sampleStore.users ∧
    (createComment sampleStore ⟨"c", "alice", 10, 1⟩ 23).store.users =
      sampleStore.users ∧
    (updateComment sampleStore 20 ⟨none⟩).store.users = sampleStore.users ∧
    (deleteComment sampleStore 20).store.users = sampleStore.users := by
  have h := users_unique_invariant sampleStore "carol" "carol@x.com" "carol2"
    "carol@x.com" "cpw" "cpw2" 5 6 3 4 1 10 20 12 23 ⟨none, none, none⟩ 7
    ⟨"T", "D", "alice", 1, none, none⟩ ⟨none, none⟩ ⟨"c", "alice", 10, 1⟩ ⟨none⟩
    "alice@x.com" "alicepw" "s3cr3t" 0 (by decide)
  obtain ⟨ha, hb, hc, hd, he, hf, hg, hh, hi, hj, hk⟩ := h
  have ha' := ha (by decide) (Or.inr rfl)
  exact ⟨ha'.1, ha'.2.1, ha'.2.2.1, ha'.2.2.2, hb, hc, hd, he, hf, hg, hh, hi, hj, hk⟩

end BlogApp
